import Mathlib

/-!
Verification development for the Fancy UI 5e overlay module.

The module's data-shaping core is embedded shallowly:
* `characterData` (src/scripts/character.js) builds a flat view-model from an
  actor record;
* `getActions` (the favorites resolver in the same file) resolves, filters and
  sorts the favorites list;
* `getPartyCharacters` filters the actor list by type and token presence;
* the hit-points editor's Enter handler (`setupHealthPointsTracker` in
  src/scripts/main.js) parses typed text and decides whether to issue an
  actor update.

JavaScript numbers are modelled by `JSNum` (NaN, the two infinities, and a
finite value modelled as a rational — every concrete value the claims touch
is exactly representable, and the divisions and comparisons involved agree
with IEEE doubles on those inputs).  Absent object fields are `Option`s, and
JS falsiness-based defaulting (`x || d`) is made explicit.
-/

namespace FancyUI5e

/-- A JavaScript number: NaN, +Infinity, -Infinity, or a finite value. -/
inductive JSNum where
  | nan
  | posInf
  | negInf
  | fin (q : ℚ)
deriving DecidableEq, Repr

/-- Coercion of a possibly-absent numeric field to a JS number:
`Number(undefined)` is `NaN`. -/
def toNum : Option ℚ → JSNum
  | none => JSNum.nan
  | some q => JSNum.fin q

/-- JS addition on `JSNum` (IEEE semantics on the modelled values). -/
def jadd : JSNum → JSNum → JSNum
  | JSNum.nan, _ => JSNum.nan
  | _, JSNum.nan => JSNum.nan
  | JSNum.posInf, JSNum.negInf => JSNum.nan
  | JSNum.negInf, JSNum.posInf => JSNum.nan
  | JSNum.posInf, _ => JSNum.posInf
  | _, JSNum.posInf => JSNum.posInf
  | JSNum.negInf, _ => JSNum.negInf
  | _, JSNum.negInf => JSNum.negInf
  | JSNum.fin a, JSNum.fin b => JSNum.fin (a + b)

/-- JS division on `JSNum`: division by zero yields a signed infinity
(or NaN for `0/0`), exactly as in IEEE arithmetic. -/
def jdiv : JSNum → JSNum → JSNum
  | JSNum.nan, _ => JSNum.nan
  | _, JSNum.nan => JSNum.nan
  | JSNum.posInf, JSNum.posInf => JSNum.nan
  | JSNum.posInf, JSNum.negInf => JSNum.nan
  | JSNum.negInf, JSNum.posInf => JSNum.nan
  | JSNum.negInf, JSNum.negInf => JSNum.nan
  | JSNum.posInf, JSNum.fin b => if b < 0 then JSNum.negInf else JSNum.posInf
  | JSNum.negInf, JSNum.fin b => if b < 0 then JSNum.posInf else JSNum.negInf
  | JSNum.fin _, JSNum.posInf => JSNum.fin 0
  | JSNum.fin _, JSNum.negInf => JSNum.fin 0
  | JSNum.fin a, JSNum.fin b =>
    if b = 0 then
      if 0 < a then JSNum.posInf else if a < 0 then JSNum.negInf else JSNum.nan
    else JSNum.fin (a / b)

/-- JS multiplication on `JSNum`. -/
def jmul : JSNum → JSNum → JSNum
  | JSNum.nan, _ => JSNum.nan
  | _, JSNum.nan => JSNum.nan
  | JSNum.posInf, JSNum.posInf => JSNum.posInf
  | JSNum.posInf, JSNum.negInf => JSNum.negInf
  | JSNum.negInf, JSNum.posInf => JSNum.negInf
  | JSNum.negInf, JSNum.negInf => JSNum.posInf
  | JSNum.posInf, JSNum.fin b =>
    if b = 0 then JSNum.nan else if b < 0 then JSNum.negInf else JSNum.posInf
  | JSNum.fin a, JSNum.posInf =>
    if a = 0 then JSNum.nan else if a < 0 then JSNum.negInf else JSNum.posInf
  | JSNum.negInf, JSNum.fin b =>
    if b = 0 then JSNum.nan else if b < 0 then JSNum.posInf else JSNum.negInf
  | JSNum.fin a, JSNum.negInf =>
    if a = 0 then JSNum.nan else if a < 0 then JSNum.posInf else JSNum.negInf
  | JSNum.fin a, JSNum.fin b => JSNum.fin (a * b)

/-- Model of `Math.floor`: identity on the infinities, `NaN` on `NaN`. -/
def jfloor : JSNum → JSNum
  | JSNum.nan => JSNum.nan
  | JSNum.posInf => JSNum.posInf
  | JSNum.negInf => JSNum.negInf
  | JSNum.fin q => JSNum.fin ((Rat.floor q : ℤ) : ℚ)

/-- JS strict `>` comparison: any comparison involving `NaN` is false. -/
def jgt : JSNum → JSNum → Bool
  | JSNum.nan, _ => false
  | _, JSNum.nan => false
  | JSNum.posInf, JSNum.posInf => false
  | JSNum.posInf, _ => true
  | JSNum.negInf, _ => false
  | JSNum.fin _, JSNum.posInf => false
  | JSNum.fin _, JSNum.negInf => true
  | JSNum.fin a, JSNum.fin b => decide (b < a)

/-- JS whitespace, as stripped by `String.prototype.trim` and `Number`. -/
def jsWhitespace (c : Char) : Bool :=
  c == ' ' || c == '\t' || c == '\n' || c == '\r' || c == '\x0b' || c == '\x0c'

/-- Model of `String.prototype.trim` on a character list. -/
def trimChars (cs : List Char) : List Char :=
  ((cs.dropWhile jsWhitespace).reverse.dropWhile jsWhitespace).reverse

/-- Value of a digit string, most significant first. -/
def digitsVal (cs : List Char) : ℕ :=
  cs.foldl (fun acc c => 10 * acc + (c.toNat - 48)) 0

/-- Parse an unsigned decimal literal (`digits`, `digits.digits`, `.digits`,
`digits.`); anything else is no parse.  Host-primitive model: the decimal
fragment of ECMAScript `ToNumber` on strings. -/
def parseDecimal (cs : List Char) : Option ℚ :=
  let intPart := cs.takeWhile Char.isDigit
  let rest := cs.dropWhile Char.isDigit
  match rest with
  | [] => if intPart.isEmpty then none else some (digitsVal intPart)
  | c :: frac =>
    if c = '.' then
      if frac.all Char.isDigit && !(intPart.isEmpty && frac.isEmpty) then
        some ((digitsVal intPart : ℚ) + (digitsVal frac : ℚ) / ((10 : ℚ) ^ frac.length))
      else none
    else none

/-- Attach a sign to a parsed decimal; no parse is `NaN`. -/
def parseSigned (sign : ℚ) (cs : List Char) : JSNum :=
  match parseDecimal cs with
  | some q => JSNum.fin (sign * q)
  | none => JSNum.nan

/-- Host-primitive model: `Number(string)` restricted to decimal literals
with an optional sign; the empty (all-whitespace) string is `0`, and any
other non-literal is `NaN`. -/
def jsNumberChars (cs : List Char) : JSNum :=
  match trimChars cs with
  | [] => JSNum.fin 0
  | c :: rest =>
    if c = '+' then parseSigned 1 rest
    else if c = '-' then parseSigned (-1) rest
    else parseSigned 1 (c :: rest)

/-- Does the text start with an explicit `+` or `-` sign
(`inputValue.startsWith("+") || inputValue.startsWith("-")`)? -/
def startsSign : List Char → Bool
  | [] => false
  | c :: _ => c == '+' || c == '-'

/-- The Enter branch of `setupHealthPointsTracker` (src/scripts/main.js):
given the actor's current hit-point value and the typed text, return
`some newHp` when the handler calls `actor.update` with `newHp`, and `none`
when it returns without issuing an update.  Mirrors the source line by
line: trim the text, bail out on empty, treat a leading sign as a delta on
`Number(hp.value)`, otherwise take the absolute `Number(text)`. -/
def hpEditorEnter (hpValue : Option ℚ) (input : String) : Option JSNum :=
  let current := toNum hpValue
  let inputValue := trimChars input.data
  if inputValue = [] then none
  else if startsSign inputValue then some (jadd current (jsNumberChars inputValue))
  else some (jsNumberChars inputValue)

/-- A favorite entry stored on the actor: a relative reference id (possibly
absent) and a sort key (possibly absent). -/
structure Favorite where
  id : Option String
  sort : Option ℚ
deriving DecidableEq, Repr

/-- An item document as returned by the host's `fromUuidSync`:
`dataType` models the legacy `itemDoc.data?.type` field. -/
structure Item where
  id : String
  name : String
  img : String
  dataType : Option String
  type : String
deriving DecidableEq, Repr

/-- Outcome of the host's `fromUuidSync` lookup for one reference id:
the call may throw, return null/undefined, or return an item document. -/
inductive Resolution where
  | throws
  | notFound
  | found (itemDoc : Item)
deriving DecidableEq, Repr

/-- A resolved favorite action `{id, name, img, sort}`. -/
structure Action where
  id : String
  name : String
  img : String
  sort : ℚ
deriving DecidableEq, Repr

/-- The `attributes.init` field: absent, a scalar, or an object whose
`total` may itself be absent. -/
inductive InitField where
  | undef
  | num (q : ℚ)
  | obj (total : Option ℚ)
deriving DecidableEq, Repr

/-- The `attributes.ac` field: absent, a scalar, or an object whose
`value` may itself be absent. -/
inductive ACField where
  | undef
  | num (q : ℚ)
  | obj (value : Option ℚ)
deriving DecidableEq, Repr

/-- The `attributes.hp` object with possibly-absent `value` and `max`. -/
structure HPField where
  value : Option ℚ
  max : Option ℚ
deriving DecidableEq, Repr

/-- The `attributes.movement` object. -/
structure Movement where
  walk : Option ℚ
deriving DecidableEq, Repr

/-- The actor's `system.attributes` object. -/
structure AttributesRec where
  movement : Option Movement
  init : InitField
  ac : ACField
  hp : Option HPField
deriving DecidableEq, Repr

/-- The actor's `system.details` object; `cls` embeds the source field
named `class` (a reserved word in Lean). -/
structure Details where
  level : Option ℚ
  race : Option String
  cls : Option String
deriving DecidableEq, Repr

/-- The actor's `system` record.  `abilities` and `skills` are opaque
pass-through maps, modelled as association lists. -/
structure ActorSystem where
  details : Option Details
  attributes : Option AttributesRec
  abilities : List (String × ℚ)
  skills : List (String × ℚ)
  favorites : Option (List Favorite)
deriving DecidableEq, Repr

/-- A host actor record, restricted to the fields this module reads. -/
structure Actor where
  id : String
  type : String
  name : String
  img : String
  system : ActorSystem
deriving DecidableEq, Repr

/-- A dynamically-typed view-model field value: the `ini` and `armor`
slots can hold a number, a string, or (on degenerate inputs) the raw
`init`/`ac` object that JS falsiness lets through. -/
inductive JSVal where
  | vNum (q : ℚ)
  | vStr (s : String)
  | vInitObj (total : Option ℚ)
  | vACObj (value : Option ℚ)
deriving DecidableEq, Repr

/-- JS `x || d` defaulting on a possibly-absent numeric field:
absent and `0` are falsy. -/
def orQ (x : Option ℚ) (d : ℚ) : ℚ :=
  match x with
  | some q => if q = 0 then d else q
  | none => d

/-- JS `x || d` defaulting on a possibly-absent string field:
absent and the empty string are falsy. -/
def orStr (x : Option String) (d : String) : String :=
  match x with
  | some s => if s = "" then d else s
  | none => d

/-- The initiative resolution expression in `characterData`:
`(typeof init === "object" && init.total !== undefined) ? init.total
: init || 0`. -/
def iniOf : InitField → JSVal
  | InitField.obj (some t) => JSVal.vNum t
  | InitField.obj none => JSVal.vInitObj none
  | InitField.num q => if q = 0 then JSVal.vNum 0 else JSVal.vNum q
  | InitField.undef => JSVal.vNum 0

/-- The armor resolution expression in `characterData`:
`data.attributes?.ac?.value || data.attributes?.ac || ""`. -/
def armorOf : ACField → JSVal
  | ACField.obj (some v) => if v = 0 then JSVal.vACObj (some v) else JSVal.vNum v
  | ACField.obj none => JSVal.vACObj none
  | ACField.num q => if q = 0 then JSVal.vStr ("") else JSVal.vNum q
  | ACField.undef => JSVal.vStr ("")

/-- The access path `data.attributes?.init` (an absent attributes object
makes the whole chain undefined). -/
def attrInitOf (data : ActorSystem) : InitField :=
  match data.attributes with
  | some a => a.init
  | none => InitField.undef

/-- The access path `data.attributes?.ac`. -/
def attrACOf (data : ActorSystem) : ACField :=
  match data.attributes with
  | some a => a.ac
  | none => ACField.undef

/-- The access path `data.attributes?.hp?.value`. -/
def hpValueOf (data : ActorSystem) : Option ℚ :=
  (data.attributes.bind AttributesRec.hp).bind HPField.value

/-- The access path `data.attributes?.hp?.max`. -/
def hpMaxOf (data : ActorSystem) : Option ℚ :=
  (data.attributes.bind AttributesRec.hp).bind HPField.max

/-- The `hp` sub-object of the view-model. -/
structure HPView where
  value : Option ℚ
  max : Option ℚ
  percent : JSNum
  status : String
deriving DecidableEq, Repr

/-- The flat Character View-Model produced by `characterData`. -/
structure CharacterVM where
  id : String
  isCharacter : Bool
  name : String
  level : ℚ
  race : String
  cls : String
  picture : String
  speed : ℚ
  ini : JSVal
  armor : JSVal
  hp : HPView
  abilities : List (String × ℚ)
  skills : List (String × ℚ)
  actions : List Action
deriving DecidableEq, Repr

/-- The fixed allow-list of favorite item categories. -/
def allowedTypes : List String := ["spell", "consumable", "weapon", "feat"]

/-- The expression `itemDoc.data?.type || itemDoc.type`. -/
def itemTypeOf (itemDoc : Item) : String :=
  match itemDoc.dataType with
  | some t => if t = "" then itemDoc.type else t
  | none => itemDoc.type

/-- Projection of a resolved item and its favorite entry to an action:
`{id: itemDoc.id, name: itemDoc.name, img: itemDoc.img, sort: fav.sort || 0}`. -/
def favAction (itemDoc : Item) (fav : Favorite) : Action :=
  { id := itemDoc.id, name := itemDoc.name, img := itemDoc.img, sort := orQ fav.sort 0 }

/-- The favorites loop of `getActions` (src/scripts/character.js): skip a
falsy id, skip when the lookup throws (the `try`/`catch` logs and
continues) or returns nothing, skip a non-allow-listed category, and
otherwise push the projected action.  `resolve` models the host's
`fromUuidSync` relative to the actor. -/
def resolveFavs (resolve : String → Resolution) : List Favorite → List Action
  | [] => []
  | fav :: rest =>
    match fav.id with
    | none => resolveFavs resolve rest
    | some fid =>
      if fid = "" then resolveFavs resolve rest
      else
        match resolve fid with
        | Resolution.throws => resolveFavs resolve rest
        | Resolution.notFound => resolveFavs resolve rest
        | Resolution.found itemDoc =>
          if allowedTypes.contains (itemTypeOf itemDoc) then
            favAction itemDoc fav :: resolveFavs resolve rest
          else
            resolveFavs resolve rest

/-- The comparator `(a, b) => a.sort - b.sort` as a boolean order. -/
def actionLE (a b : Action) : Bool := decide (a.sort ≤ b.sort)

/-- The function `getActions`: run the favorites loop on `actor.system.favorites || []`
and sort the result stably and ascending by the sort key (`Array.sort` with
comparator `a.sort - b.sort` is a stable sort, modelled by `mergeSort`). -/
def getActions (resolve : String → Resolution) (actor : Actor) : List Action :=
  List.mergeSort (resolveFavs resolve (actor.system.favorites.getD [])) actionLE

/-- The body of `characterData` on a present actor: the record literal from
src/scripts/character.js, field by field. -/
def buildVM (resolve : String → Resolution) (actor : Actor) : CharacterVM :=
  let data := actor.system
  { id := actor.id
    isCharacter := true
    name := actor.name
    level := orQ (data.details.bind Details.level) 1
    race := orStr (data.details.bind Details.race) ("")
    cls := orStr (data.details.bind Details.cls) ("")
    picture := actor.img
    speed := orQ ((data.attributes.bind AttributesRec.movement).bind Movement.walk) 0
    ini := iniOf (attrInitOf data)
    armor := armorOf (attrACOf data)
    hp :=
      { value := hpValueOf data
        max := hpMaxOf data
        percent := jfloor (jmul (jdiv (toNum (hpValueOf data)) (toNum (hpMaxOf data))) (JSNum.fin 100))
        status := if jgt (jdiv (toNum (hpValueOf data)) (toNum (hpMaxOf data))) (JSNum.fin (1/2))
          then "healthy" else "injured" }
    abilities := data.abilities
    skills := data.skills
    actions := getActions resolve actor }

/-- The function `characterData`: `if (!actor) return {}` then the record above.  The
absent case is modelled as `none`. -/
def characterData (resolve : String → Resolution) : Option Actor → Option CharacterVM
  | none => none
  | some actor => some (buildVM resolve actor)

/-- One call of `characterData` against host state: the pair of the
produced view-model and the actor store as the call leaves it.  The source
only reads from the actor, so the state component is returned unchanged. -/
def characterDataCall (resolve : String → Resolution) (actor : Option Actor) :
    Option CharacterVM × Option Actor :=
  (characterData resolve actor, actor)

/-- A canvas token placeable; `actor` models `t.actor` (possibly absent). -/
structure Token where
  actor : Option Actor
deriving DecidableEq, Repr

/-- The slice of host game state read by `getPartyCharacters`:
the actor directory, the canvas token placeables, and the
`party-only-active` module setting. -/
structure GameState where
  actors : List Actor
  placeables : List Token
  partyOnlyActive : Bool
deriving DecidableEq, Repr

/-- Does some placeable token represent this actor
(`canvas.tokens.placeables.some(t => t.actor?.id === actor.id)`)? -/
def hasActiveToken (s : GameState) (a : Actor) : Bool :=
  s.placeables.any fun t =>
    match t.actor with
    | some ta => ta.id == a.id
    | none => false

/-- The function `getPartyCharacters` (src/scripts/character.js): all actors of type
`"character"`, filtered down to those with a token on the canvas when the
`party-only-active` setting is on. -/
def getPartyCharacters (s : GameState) : List Actor :=
  let actors := s.actors.filter fun a => a.type == "character"
  if s.partyOnlyActive then
    actors.filter fun a => hasActiveToken s a
  else
    actors

/-! ## Fixtures -/

/-- A resolver for actors with no favorites: every lookup misses. -/
def res0 : String → Resolution := fun _ => Resolution.notFound

/-- An actor system with just a hit-point object. -/
def mkSystem (hpv hpm : Option ℚ) : ActorSystem :=
  { details := none
    attributes := some { movement := none, init := InitField.undef, ac := ACField.undef,
                         hp := some { value := hpv, max := hpm } }
    abilities := [], skills := [], favorites := none }

/-- A character actor wrapping a given system record. -/
def mkActor (sys : ActorSystem) : Actor :=
  { id := "a1", type := "character", name := "Hero", img := "hero.png", system := sys }

/-- The actor at 0 of 0 hit points. -/
def actorHPZero : Actor := mkActor (mkSystem (some 0) (some 0))

/-- The actor at 1 of 2 hit points (ratio exactly one half). -/
def actorHalf : Actor := mkActor (mkSystem (some 1) (some 2))

/-- A weapon item document. -/
def weaponItem : Item :=
  { id := "w1", name := "Dagger", img := "dagger.png", dataType := none, type := "weapon" }

/-- A non-allow-listed equipment item document. -/
def equipItem : Item :=
  { id := "e1", name := "Plate", img := "plate.png", dataType := none, type := "equipment" }

/-- Resolver with one weapon, one equipment item, everything else throwing. -/
def resolveC5 : String → Resolution := fun fid =>
  if fid = "w" then Resolution.found weaponItem
  else if fid = "e" then Resolution.found equipItem
  else Resolution.throws

/-- Favorites referencing the weapon, the equipment, and a broken id. -/
def favsC5 : List Favorite :=
  [{ id := some ("w"), sort := some 1 },
   { id := some ("e"), sort := some 2 },
   { id := some ("x"), sort := some 3 }]

/-- A system record carrying only a favorites list. -/
def mkFavSystem (favs : List Favorite) : ActorSystem :=
  { details := none, attributes := none, abilities := [], skills := [],
    favorites := some favs }

/-- The actor holding the three-favorite list above. -/
def actorFavsC5 : Actor := mkActor (mkFavSystem favsC5)

/-- Spell item documents for the ordering fixtures. -/
def spellItem1 : Item :=
  { id := "i1", name := "Fireball", img := "i1.png", dataType := none, type := "spell" }

/-- Second spell item document. -/
def spellItem2 : Item :=
  { id := "i2", name := "Shield", img := "i2.png", dataType := none, type := "spell" }

/-- Third spell item document. -/
def spellItem3 : Item :=
  { id := "i3", name := "Mage Hand", img := "i3.png", dataType := none, type := "spell" }

/-- Resolver for the ordering fixtures. -/
def resolveC6 : String → Resolution := fun fid =>
  if fid = "f1" then Resolution.found spellItem1
  else if fid = "f2" then Resolution.found spellItem2
  else if fid = "f3" then Resolution.found spellItem3
  else Resolution.notFound

/-- Favorites with sort keys 3, 1, 2 in stored order. -/
def favsC6 : List Favorite :=
  [{ id := some ("f1"), sort := some 3 },
   { id := some ("f2"), sort := some 1 },
   { id := some ("f3"), sort := some 2 }]

/-- Favorites with sort keys 1, missing, 1: exercises the missing-key
default and the equal-key tie. -/
def favsC6b : List Favorite :=
  [{ id := some ("f1"), sort := some 1 },
   { id := some ("f2"), sort := none },
   { id := some ("f3"), sort := some 1 }]

/-- The actor holding `favsC6`. -/
def actorC6 : Actor := mkActor (mkFavSystem favsC6)

/-- The actor holding `favsC6b`. -/
def actorC6b : Actor := mkActor (mkFavSystem favsC6b)

/-- A minimal system with a chosen init field. -/
def mkIniSystem (ini : InitField) : ActorSystem :=
  { details := none
    attributes := some { movement := none, init := ini, ac := ACField.undef, hp := none }
    abilities := [], skills := [], favorites := none }

/-- An actor whose `attributes.init` is the object `{total: 2}`. -/
def actorIniObj : Actor := mkActor (mkIniSystem (InitField.obj (some 2)))

/-- Game state with one tokenless character and the roster filter on. -/
def gsC8 : GameState := { actors := [actorHPZero], placeables := [], partyOnlyActive := true }

/-- Actor with level 0, race the empty string, absent class, and a scalar
armor class of 0. -/
def actorC10 : Actor :=
  mkActor
    { details := some { level := some 0, race := some (""), cls := none }
      attributes := some { movement := none, init := InitField.undef, ac := ACField.num 0, hp := none }
      abilities := [], skills := [], favorites := none }

/-! ## Helper lemmas -/

/-- Unfolding helper for the Enter handler, keyed on the trimmed text. -/
theorem hpEditorEnter_of_trim (hpValue : Option ℚ) (input : String) (t : List Char)
    (ht : trimChars input.data = t) :
    hpEditorEnter hpValue input =
      if t = [] then none
      else if startsSign t then some (jadd (toNum hpValue) (jsNumberChars t))
      else some (jsNumberChars t) := by
  unfold hpEditorEnter
  rw [ht]

/-- Evaluation of the Number model on the text "+5". -/
theorem jsNumberChars_plus5 : jsNumberChars ['+', '5'] = JSNum.fin 5 := by
  have hp : parseSigned 1 ['5'] = JSNum.fin 5 := by
    have h : parseDecimal ['5'] = some 5 := by decide
    simp [parseSigned, h]
  have ht : trimChars ['+', '5'] = '+' :: ['5'] := by decide
  rw [jsNumberChars, ht]
  simp [hp]

/-- The action comparator is transitive. -/
theorem actionLE_trans : ∀ a b c : Action, actionLE a b → actionLE b c → actionLE a c := by
  intro a b c hab hbc
  simp only [actionLE, decide_eq_true_eq] at *
  exact le_trans hab hbc

/-- The action comparator is total. -/
theorem actionLE_total : ∀ a b : Action, actionLE a b || actionLE b a := by
  intro a b
  simp only [actionLE, Bool.or_eq_true, decide_eq_true_eq]
  exact le_total a.sort b.sort

/-! ## Claims -/

/-- C1: the spec requires that typed hit-point text whose parse yields NaN
(such as "abc") is rejected before any update is issued.  The code has no
such guard: on an actor at 10 hit points, confirming "abc" with Enter
reaches `actor.update` with `newHp = NaN`, an issued update carrying NaN —
not the absence of an update the spec demands. -/
theorem hp_editor_abc_issues_nan_update :
    hpEditorEnter (some 10) ("abc") = some JSNum.nan := by decide

/-- C2: the spec requires a defined, non-NaN `hp.percent` when the
hit-point max is 0.  The code instead propagates the division: at 0 of 0
hit points `percent` is `Math.floor((0/0)*100) = NaN` (the view-model
carries NaN), while `status` falls to the defined string "injured" because
the NaN comparison is false. -/
theorem characterData_zero_max_propagates_nan :
    ∃ vm, characterData res0 (some actorHPZero) = some vm ∧
      vm.hp.percent = JSNum.nan ∧ vm.hp.status = "injured" :=
  ⟨buildVM res0 actorHPZero, rfl, by decide, by decide⟩

/-- C3: for an actor with hit-point max greater than 0, a value/max ratio
of exactly one half yields status "injured" (the comparison is strict),
and value equal to max yields percent 100 and status "healthy". -/
theorem hp_percent_status_boundary (resolve : String → Resolution) (a : Actor) (v m : ℚ)
    (vm : CharacterVM) (hvm : characterData resolve (some a) = some vm)
    (hv : hpValueOf a.system = some v) (hm : hpMaxOf a.system = some m) (hmpos : 0 < m) :
    (v / m = 1 / 2 → vm.hp.status = "injured") ∧
    (v = m → vm.hp.percent = JSNum.fin 100 ∧ vm.hp.status = "healthy") := by
  have hvm' : vm = buildVM resolve a := by
    simpa [characterData] using hvm.symm
  subst hvm'
  have hdiv : jdiv (toNum (hpValueOf a.system)) (toNum (hpMaxOf a.system)) = JSNum.fin (v / m) := by
    rw [hv, hm]
    simp [toNum, jdiv, ne_of_gt hmpos]
  constructor
  · intro hhalf
    have hfalse : jgt (JSNum.fin (v / m)) (JSNum.fin 2⁻¹) = false := by
      rw [hhalf]
      norm_num [jgt]
    simp [buildVM, hdiv, hfalse]
  · intro hveq
    have h1 : v / m = 1 := by
      rw [hveq]
      exact div_self (ne_of_gt hmpos)
    have hfloor : ((Rat.floor (100 : ℚ) : ℤ) : ℚ) = 100 := by decide
    have htrue : jgt (JSNum.fin (v / m)) (JSNum.fin 2⁻¹) = true := by
      rw [h1]
      norm_num [jgt]
    constructor
    · simp [buildVM, hdiv, h1, jmul, jfloor, hfloor]
    · simp [buildVM, hdiv, htrue]

/-- Witness for C3 at the concrete actor with 1 of 2 hit points. -/
theorem hp_percent_status_boundary_witness :
    ((1 : ℚ) / 2 = 1 / 2 → (buildVM res0 actorHalf).hp.status = "injured") ∧
    ((1 : ℚ) = 2 → (buildVM res0 actorHalf).hp.percent = JSNum.fin 100 ∧
      (buildVM res0 actorHalf).hp.status = "healthy") :=
  hp_percent_status_boundary res0 actorHalf 1 2 (buildVM res0 actorHalf) rfl
    (by decide) (by decide) (by norm_num)

/-- C4: in the hit-points editor, confirmed text starting with a sign is a
delta on the current value ("+5" gives current + 5, "-3" gives
current - 3), "20" sets the absolute value 20, text trimming to empty
issues no update, and in general signed numeric text adds the signed
parse while unsigned numeric text replaces outright. -/
theorem hp_editor_enter_behavior (cur : ℚ) (s : String) :
    hpEditorEnter (some cur) ("+5") = some (JSNum.fin (cur + 5)) ∧
    hpEditorEnter (some cur) ("-3") = some (JSNum.fin (cur - 3)) ∧
    hpEditorEnter (some cur) ("20") = some (JSNum.fin 20) ∧
    (trimChars s.data = [] → hpEditorEnter (some cur) s = none) ∧
    (∀ v : ℚ, trimChars s.data ≠ [] → jsNumberChars (trimChars s.data) = JSNum.fin v →
      (startsSign (trimChars s.data) = true →
        hpEditorEnter (some cur) s = some (JSNum.fin (cur + v))) ∧
      (startsSign (trimChars s.data) = false →
        hpEditorEnter (some cur) s = some (JSNum.fin v))) := by
  refine ⟨?_, ?_, ?_, ?_, ?_⟩
  · rw [hpEditorEnter_of_trim _ _ ('+' :: ['5']) (by decide)]
    simp [startsSign, jsNumberChars_plus5, jadd, toNum]
  · have hn : jsNumberChars ['-', '3'] = JSNum.fin (-3) := by
      have h : parseDecimal ['3'] = some 3 := by decide
      have ht : trimChars ['-', '3'] = '-' :: ['3'] := by decide
      rw [jsNumberChars, ht]
      simp [parseSigned, h]
    rw [hpEditorEnter_of_trim _ _ ('-' :: ['3']) (by decide)]
    simp [startsSign, hn, jadd, toNum]
    ring
  · have hn : jsNumberChars ['2', '0'] = JSNum.fin 20 := by
      have h : parseDecimal ['2', '0'] = some 20 := by decide
      have ht : trimChars ['2', '0'] = '2' :: ['0'] := by decide
      rw [jsNumberChars, ht]
      simp [parseSigned, h]
    rw [hpEditorEnter_of_trim _ _ ('2' :: ['0']) (by decide)]
    simp [startsSign, hn]
  · intro h
    rw [hpEditorEnter_of_trim _ _ [] h]
    simp
  · intro v hne hv
    constructor
    · intro hsign
      rw [hpEditorEnter_of_trim _ _ (trimChars s.data) rfl]
      simp [hne, hsign, hv, jadd, toNum]
    · intro hsign
      rw [hpEditorEnter_of_trim _ _ (trimChars s.data) rfl]
      simp [hne, hsign, hv]

/-- Witness for C4: all-whitespace text issues no update. -/
theorem hp_editor_enter_behavior_witness :
    hpEditorEnter (some 10) ("  ") = none :=
  (hp_editor_enter_behavior 10 ("  ")).2.2.2.1 (by decide)

/-- C5: on a favorites list with one weapon, one non-allow-listed item and
one broken reference, the resolver returns exactly the weapon; and in
general an entry with an absent id, an unresolvable id, or a throwing
lookup is skipped wherever it sits, leaving the rest of the resolution
unchanged (no abort). -/
theorem favorites_partial_failure :
    getActions resolveC5 actorFavsC5 =
      [{ id := "w1", name := "Dagger", img := "dagger.png", sort := 1 }] ∧
    (∀ (resolve : String → Resolution) (l1 l2 : List Favorite) (so : Option ℚ),
      resolveFavs resolve (l1 ++ { id := none, sort := so } :: l2) =
        resolveFavs resolve (l1 ++ l2)) ∧
    (∀ (resolve : String → Resolution) (l1 l2 : List Favorite) (fid : String) (so : Option ℚ),
      resolve fid = Resolution.notFound →
      resolveFavs resolve (l1 ++ { id := some fid, sort := so } :: l2) =
        resolveFavs resolve (l1 ++ l2)) ∧
    (∀ (resolve : String → Resolution) (l1 l2 : List Favorite) (fid : String) (so : Option ℚ),
      resolve fid = Resolution.throws →
      resolveFavs resolve (l1 ++ { id := some fid, sort := so } :: l2) =
        resolveFavs resolve (l1 ++ l2)) := by
  refine ⟨?_, ?_, ?_, ?_⟩
  · have h : resolveFavs resolveC5 favsC5 =
        [{ id := "w1", name := "Dagger", img := "dagger.png", sort := 1 }] := by decide
    have h0 : actorFavsC5.system.favorites.getD [] = favsC5 := rfl
    rw [getActions, h0, h]
    simp [List.mergeSort]
  · intro resolve l1 l2 so
    induction l1 with
    | nil => simp [resolveFavs]
    | cons f rest ih =>
      cases hf : f.id with
      | none => simp [resolveFavs, hf, ih]
      | some fid2 =>
        by_cases h2 : fid2 = ""
        · simp [resolveFavs, hf, h2, ih]
        · cases hr : resolve fid2 <;> simp [resolveFavs, hf, h2, hr, ih]
  · intro resolve l1 l2 fid so h
    induction l1 with
    | nil =>
      by_cases hfid : fid = ""
      · simp [resolveFavs, hfid]
      · simp [resolveFavs, hfid, h]
    | cons f rest ih =>
      cases hf : f.id with
      | none => simp [resolveFavs, hf, ih]
      | some fid2 =>
        by_cases h2 : fid2 = ""
        · simp [resolveFavs, hf, h2, ih]
        · cases hr : resolve fid2 <;> simp [resolveFavs, hf, h2, hr, ih]
  · intro resolve l1 l2 fid so h
    induction l1 with
    | nil =>
      by_cases hfid : fid = ""
      · simp [resolveFavs, hfid]
      · simp [resolveFavs, hfid, h]
    | cons f rest ih =>
      cases hf : f.id with
      | none => simp [resolveFavs, hf, ih]
      | some fid2 =>
        by_cases h2 : fid2 = ""
        · simp [resolveFavs, hf, h2, ih]
        · cases hr : resolve fid2 <;> simp [resolveFavs, hf, h2, hr, ih]

/-- Witness for C5: dropping the throwing entry leaves the result as on
the list without it. -/
theorem favorites_partial_failure_witness :
    resolveFavs resolveC5 ([] ++ { id := some ("x"), sort := (none : Option ℚ) } :: []) =
      resolveFavs resolveC5 ([] ++ []) :=
  favorites_partial_failure.2.2.2 resolveC5 [] [] ("x") none (by decide)

/-- C6: the resolved actions are always sorted ascending by the sort key;
entries with equal keys keep their original relative order (stability of
the sort); sort keys stored as 3, 1, 2 come out in order 1, 2, 3; and a
missing sort key sorts as 0 (the fixture with keys 1, missing, 1 yields
key order 0, 1, 1 with the two key-1 actions in stored order). -/
theorem favorites_sorted_stable (resolve : String → Resolution) (actor : Actor) :
    ((getActions resolve actor).Pairwise fun x y => x.sort ≤ y.sort) ∧
    (∀ x y : Action, x.sort = y.sort →
      List.Sublist [x, y] (resolveFavs resolve (actor.system.favorites.getD [])) →
      List.Sublist [x, y] (getActions resolve actor)) ∧
    getActions resolveC6 actorC6 =
      [{ id := "i2", name := "Shield", img := "i2.png", sort := 1 },
       { id := "i3", name := "Mage Hand", img := "i3.png", sort := 2 },
       { id := "i1", name := "Fireball", img := "i1.png", sort := 3 }] ∧
    getActions resolveC6 actorC6b =
      [{ id := "i2", name := "Shield", img := "i2.png", sort := 0 },
       { id := "i1", name := "Fireball", img := "i1.png", sort := 1 },
       { id := "i3", name := "Mage Hand", img := "i3.png", sort := 1 }] := by
  refine ⟨?_, ?_, ?_, ?_⟩
  · have h := @List.sorted_mergeSort Action actionLE actionLE_trans actionLE_total
      (resolveFavs resolve (actor.system.favorites.getD []))
    rw [getActions]
    refine h.imp ?_
    intro x y hxy
    simpa [actionLE, decide_eq_true_eq] using hxy
  · intro x y hxy hsub
    rw [getActions]
    refine List.pair_sublist_mergeSort actionLE_trans actionLE_total ?_ hsub
    simp [actionLE, hxy]
  · have h : resolveFavs resolveC6 favsC6 =
        [{ id := "i1", name := "Fireball", img := "i1.png", sort := 3 },
         { id := "i2", name := "Shield", img := "i2.png", sort := 1 },
         { id := "i3", name := "Mage Hand", img := "i3.png", sort := 2 }] := by decide
    have h0 : actorC6.system.favorites.getD [] = favsC6 := rfl
    rw [getActions, h0, h]
    simp [List.mergeSort, List.merge, actionLE]
    norm_num
  · have h : resolveFavs resolveC6 favsC6b =
        [{ id := "i1", name := "Fireball", img := "i1.png", sort := 1 },
         { id := "i2", name := "Shield", img := "i2.png", sort := 0 },
         { id := "i3", name := "Mage Hand", img := "i3.png", sort := 1 }] := by decide
    have h0 : actorC6b.system.favorites.getD [] = favsC6b := rfl
    rw [getActions, h0, h]
    simp [List.mergeSort, List.merge, actionLE]

/-- Witness for C6: the two equal-key actions of the tie fixture appear in
their stored order in the sorted output. -/
theorem favorites_sorted_stable_witness :
    List.Sublist
      [{ id := "i1", name := "Fireball", img := "i1.png", sort := 1 },
       { id := "i3", name := "Mage Hand", img := "i3.png", sort := 1 }]
      (getActions resolveC6 actorC6b) :=
  (favorites_sorted_stable resolveC6 actorC6b).2.1
    { id := "i1", name := "Fireball", img := "i1.png", sort := 1 }
    { id := "i3", name := "Mage Hand", img := "i3.png", sort := 1 }
    rfl (by decide)

/-- C7: the view-model initiative is the object's `total` when
`attributes.init` is an object with a defined total, the scalar itself
when it is a scalar, and 0 when it is absent. -/
theorem ini_resolution (resolve : String → Resolution) (a : Actor) (vm : CharacterVM) (t : ℚ)
    (hvm : characterData resolve (some a) = some vm) :
    (attrInitOf a.system = InitField.obj (some t) → vm.ini = JSVal.vNum t) ∧
    (attrInitOf a.system = InitField.num t → vm.ini = JSVal.vNum t) ∧
    (attrInitOf a.system = InitField.undef → vm.ini = JSVal.vNum 0) := by
  have hvm' : vm = buildVM resolve a := by simpa [characterData] using hvm.symm
  subst hvm'
  refine ⟨?_, ?_, ?_⟩ <;> intro h
  · simp [buildVM, h, iniOf]
  · simp only [buildVM, h, iniOf]
    split_ifs with h0
    · rw [h0]
    · rfl
  · simp [buildVM, h, iniOf]

/-- Witness for C7 at the actor whose init is the object with total 2. -/
theorem ini_resolution_witness :
    (attrInitOf actorIniObj.system = InitField.obj (some 2) →
      (buildVM res0 actorIniObj).ini = JSVal.vNum 2) ∧
    (attrInitOf actorIniObj.system = InitField.num 2 →
      (buildVM res0 actorIniObj).ini = JSVal.vNum 2) ∧
    (attrInitOf actorIniObj.system = InitField.undef →
      (buildVM res0 actorIniObj).ini = JSVal.vNum 0) :=
  ini_resolution res0 actorIniObj (buildVM res0 actorIniObj) 2 rfl

/-- C8: with the party-only-active setting on, a character-type actor with
no token on the canvas is excluded from the roster; with it off, the
roster is all character-type actors regardless of token presence. -/
theorem party_roster_filter (s : GameState) :
    (s.partyOnlyActive = true → ∀ a : Actor, a ∈ s.actors → a.type = "character" →
      hasActiveToken s a = false → a ∉ getPartyCharacters s) ∧
    (s.partyOnlyActive = false →
      getPartyCharacters s = s.actors.filter fun a => a.type == "character") := by
  constructor
  · intro hset a _ha _htype htok hmem
    simp [getPartyCharacters, hset, List.mem_filter, htok] at hmem
  · intro hset
    simp [getPartyCharacters, hset]

/-- Witness for C8: the tokenless character is excluded when the filter
setting is on. -/
theorem party_roster_filter_witness : actorHPZero ∉ getPartyCharacters gsC8 :=
  (party_roster_filter gsC8).1 rfl actorHPZero (by decide) (by decide) (by decide)

/-- C9: a call of `characterData` neither mutates the actor store nor
reads anything but it, so calling it twice in sequence on the same
unmutated record yields structurally equal view-models and leaves the
store as it was. -/
theorem characterData_pure_idempotent (resolve : String → Resolution) (a : Option Actor) :
    (characterDataCall resolve a).1 = (characterDataCall resolve (characterDataCall resolve a).2).1 ∧
    (characterDataCall resolve (characterDataCall resolve a).2).2 = a :=
  ⟨rfl, rfl⟩

/-- C10: the defaults apply to every falsy field value, not only absent
ones: a stored level of 0 becomes 1, a scalar armor class of 0 becomes the
empty-string default, and an empty-string race or class is
indistinguishable from an absent one (both yield the empty string). -/
theorem falsy_defaults (resolve : String → Resolution) (a : Actor) (vm : CharacterVM)
    (hvm : characterData resolve (some a) = some vm) :
    (a.system.details.bind Details.level = some 0 → vm.level = 1) ∧
    (attrACOf a.system = ACField.num 0 → vm.armor = JSVal.vStr ("")) ∧
    ((a.system.details.bind Details.race = some ("") ∨
      a.system.details.bind Details.race = none) → vm.race = "") ∧
    ((a.system.details.bind Details.cls = some ("") ∨
      a.system.details.bind Details.cls = none) → vm.cls = "") := by
  have hvm' : vm = buildVM resolve a := by simpa [characterData] using hvm.symm
  subst hvm'
  refine ⟨?_, ?_, ?_, ?_⟩
  · intro h
    simp [buildVM, h, orQ]
  · intro h
    simp [buildVM, h, armorOf]
  · rintro (h | h) <;> simp [buildVM, h, orStr]
  · rintro (h | h) <;> simp [buildVM, h, orStr]

/-- Witness for C10 at the all-falsy actor. -/
theorem falsy_defaults_witness :
    (buildVM res0 actorC10).level = 1 ∧
    (buildVM res0 actorC10).armor = JSVal.vStr ("") ∧
    (buildVM res0 actorC10).race = "" ∧
    (buildVM res0 actorC10).cls = "" :=
  ⟨(falsy_defaults res0 actorC10 (buildVM res0 actorC10) rfl).1 rfl,
   (falsy_defaults res0 actorC10 (buildVM res0 actorC10) rfl).2.1 rfl,
   (falsy_defaults res0 actorC10 (buildVM res0 actorC10) rfl).2.2.1 (Or.inl rfl),
   (falsy_defaults res0 actorC10 (buildVM res0 actorC10) rfl).2.2.2 (Or.inr rfl)⟩

end FancyUI5e
